import Mathlib

/-!
Shallow embedding of the PyEzLoader ETL runner (src/App and src/runtime.py).

The state of a relational backend is modelled as an association list from
table identity to a table (a schema, i.e. ordered column names, and a list
of rows).  The SQL statements the connectors issue (TRUNCATE TABLE,
DELETE FROM, DROP TABLE IF EXISTS, and the catalog existence queries)
are given their standard semantics on that state; each Python method is a
function from the state to an `Except`-value, `.error` marking a raised
Python exception.
-/

/-- Dynamic cell values of a tabular dataset (pandas object cells). -/
inductive Value where
  | vstr (s : String)
  | vint (n : Int)
  | vts (t : Nat)
  | vnull
deriving DecidableEq, Repr

/-- One relational table: its schema (ordered column names) and rows. -/
structure Table where
  schema : List String
  rows : List (List Value)
deriving DecidableEq, Repr

/-- Association-list lookup of the first entry with the given key.  Models a
catalog lookup by name (and the connection-registry lookup by name). -/
def alookup {α β : Type} [DecidableEq α] : List (α × β) → α → Option β
  | [], _ => none
  | p :: rest, k => if p.1 = k then some p.2 else alookup rest k

/-- Semantics of clearing all rows of every table with the given identity,
as TRUNCATE TABLE / DELETE FROM do, leaving the schema in place. -/
def aclear {α : Type} [DecidableEq α] : List (α × Table) → α → List (α × Table)
  | [], _ => []
  | p :: rest, k =>
      (if p.1 = k then (p.1, { p.2 with rows := [] }) else p) :: aclear rest k

/-- Semantics of DROP TABLE IF EXISTS: every table with the given identity
is removed from the database; absent identities are untouched. -/
def adrop {α : Type} [DecidableEq α] : List (α × Table) → α → List (α × Table)
  | [], _ => []
  | p :: rest, k => if p.1 = k then adrop rest k else p :: adrop rest k

/-- A single-namespace SQL database: tables keyed by bare table name.  This is
the state the `SQLConnector` family (src/App/connectors.py and
src/App/sql_connectors.py) operates on. -/
abbrev Db := List (String × Table)

/-- Errors raised by the database layer (`DatabaseError` in
src/App/database_connectors.py, and SQL statement failures). -/
inductive DbError where
  | schemaMissing
  | tableMissing
  | validationFailed
deriving DecidableEq, Repr

namespace SQLConnector

/-- Models `SQLConnector.table_exists` as implemented by each backend subclass
(src/App/connectors.py lines 186-316): a catalog query (to_regclass,
information_schema.tables, sqlite_master, all_tables) that reports whether a
table of that name is present, never raising for an absent table. -/
def table_exists (db : Db) (t : String) : Bool :=
  (alookup db t).isSome

/-- Semantics of executing `TRUNCATE TABLE t` (or SQLite's `DELETE FROM t`,
src/App/connectors.py line 300): clears the rows if the table exists, and is
a SQL error otherwise. -/
def sqlTruncate (db : Db) (t : String) : Except DbError Db :=
  if table_exists db t then .ok (aclear db t) else .error .tableMissing

/-- Models `SQLConnector.truncate_table` (src/App/connectors.py lines 154-159,
identically src/App/sql_connectors.py lines 53-58 and the SQLite override at
connectors.py lines 298-303): if the table exists the clearing statement is
executed, otherwise the method logs a warning and does nothing. -/
def truncate_table (db : Db) (t : String) : Except DbError Db :=
  if table_exists db t then sqlTruncate db t else .ok db

/-- Models `SQLConnector.drop_table` (src/App/connectors.py lines 161-163):
executes `DROP TABLE IF EXISTS t`, which never fails on an absent table. -/
def drop_table (db : Db) (t : String) : Except DbError Db :=
  .ok (adrop db t)

end SQLConnector

/-- The state a `PostgresSQLHandler` (src/App/database_connectors.py) operates
on: a set of schemas and tables keyed by (schema, table) pairs. -/
structure PgDb where
  schemas : List String
  tables : List ((String × String) × Table)
deriving DecidableEq, Repr

namespace PostgresSQLHandler

/-- Models `PostgresSQLHandler._schema_exists`
(src/App/database_connectors.py lines 33-42): a catalog count over
information_schema.schemata. -/
def schema_exists (pdb : PgDb) (s : String) : Bool :=
  pdb.schemas.contains s

/-- Models `PostgresSQLHandler._table_exists`
(src/App/database_connectors.py lines 44-54): a catalog count over
information_schema.tables, filtered by schema and table name. -/
def table_exists (pdb : PgDb) (s t : String) : Bool :=
  (alookup pdb.tables (s, t)).isSome

/-- Row count of a table, as `SELECT COUNT(*)` reports it (0 if absent). -/
def rowCount (pdb : PgDb) (s t : String) : Nat :=
  ((alookup pdb.tables (s, t)).map (fun tb => tb.rows.length)).getD 0

/-- Models `PostgresSQLHandler.truncate_table`
(src/App/database_connectors.py lines 121-140): raises DatabaseError when the
schema or the table does not exist; otherwise executes TRUNCATE TABLE and then
`_validate_truncate` (lines 142-151), which raises if rows remain.  The
MSSQLHandler method (lines 319-343) has the same structure. -/
def truncate_table (pdb : PgDb) (s t : String) : Except DbError PgDb :=
  if ¬ schema_exists pdb s then .error .schemaMissing
  else if ¬ table_exists pdb s t then .error .tableMissing
  else
    let pdb' : PgDb := { pdb with tables := aclear pdb.tables (s, t) }
    if rowCount pdb' s t ≠ 0 then .error .validationFailed else .ok pdb'

/-- Models `PostgresSQLHandler.drop_table`
(src/App/database_connectors.py lines 153-170): raises DatabaseError when the
schema does not exist; otherwise executes DROP TABLE IF EXISTS and then
`_validate_drop` (lines 172-174), which raises if the table still exists. -/
def drop_table (pdb : PgDb) (s t : String) : Except DbError PgDb :=
  if ¬ schema_exists pdb s then .error .schemaMissing
  else
    let pdb' : PgDb := { pdb with tables := adrop pdb.tables (s, t) }
    if table_exists pdb' s t then .error .validationFailed else .ok pdb'

end PostgresSQLHandler

/-!
Transform stage (src/App/transformations.py).  An in-memory dataset is a
pandas DataFrame: an ordered list of column names and a list of rows, each
row holding one value per column.  Timestamps are explicit: the wall clock
read by `datetime.now()` at a step execution is a `Nat` parameter of the
embedding, so a single step invocation owns a single captured instant.
Pandas itself (cell storage, `df.eval`) is an external collaborator: formula
evaluation for the `calculate_value` step is a function parameter.
-/

/-- An in-memory pandas DataFrame: ordered column names plus rows. -/
structure DataFrame where
  columns : List String
  rows : List (List Value)
deriving DecidableEq, Repr

/-- Number of rows, as `len(df)` reports it. -/
def DataFrame.nRows (df : DataFrame) : Nat :=
  df.rows.length

/-- Models pandas `DataFrame.empty`: true when either axis has length 0. -/
def DataFrame.isEmptyDf (df : DataFrame) : Bool :=
  df.rows.isEmpty || df.columns.isEmpty

/-- The `pd.DataFrame()` an error path returns
(src/App/pipelines.py line 256). -/
def emptyDf : DataFrame :=
  { columns := [], rows := [] }

/-- Python exceptions the pipeline layer can observe. -/
inductive PyError where
  | keyError (k : String)
  | valueErrorMissingKey (k : String)
  | valueErrorConnectionNotFound (name : String)
  | valueErrorUnsupportedAction (a : String)
  | databaseError (e : DbError)
deriving DecidableEq, Repr

/-- One transformation step as the YAML dictionary presents it: a `type` tag
plus the optional parameters the recognized kinds read
(src/App/transformations.py lines 19-64). -/
structure TransformStep where
  ttype : String
  column_name : Option String := none
  old_name : Option String := none
  new_name : Option String := none
  new_column : Option String := none
  formula : Option String := none
  format_type : Option String := none
deriving DecidableEq, Repr

/-- Dictionary access `transformation[k]`: KeyError when the key is absent. -/
def getParam (p : Option String) (k : String) : Except PyError String :=
  match p with
  | some v => .ok v
  | none => .error (.keyError k)

/-- Python `str()` of a cell value, as `standardize_phone` applies it. -/
def pyStr (v : Value) : String :=
  match v with
  | .vstr s => s
  | .vint n => toString n
  | .vts t => toString t
  | .vnull => "None"

/-- Code-point ranges, beyond the ASCII digits, on which Python's
`str.isdigit` answers true: the characters of Unicode Numeric_Type Decimal
(the Basic Multilingual Plane decimal-digit blocks, Arabic-Indic through
fullwidth) and of Numeric_Type Digit (superscripts, subscripts, circled,
parenthesized and dingbat digits, Ethiopic digits).  Supplementary-plane
digit blocks are not listed; no theorem depends on characters beyond the
Basic Multilingual Plane. -/
def pyDigitExtra : List (Nat × Nat) :=
  [(0xB2, 0xB3), (0xB9, 0xB9),
   (0x660, 0x669), (0x6F0, 0x6F9), (0x7C0, 0x7C9), (0x966, 0x96F),
   (0x9E6, 0x9EF), (0xA66, 0xA6F), (0xAE6, 0xAEF), (0xB66, 0xB6F),
   (0xBE6, 0xBEF), (0xC66, 0xC6F), (0xCE6, 0xCEF), (0xD66, 0xD6F),
   (0xDE6, 0xDEF), (0xE50, 0xE59), (0xED0, 0xED9), (0xF20, 0xF29),
   (0x1040, 0x1049), (0x1090, 0x1099), (0x1369, 0x1371),
   (0x17E0, 0x17E9), (0x1810, 0x1819), (0x1946, 0x194F),
   (0x19D0, 0x19DA), (0x1A80, 0x1A89), (0x1A90, 0x1A99),
   (0x1B50, 0x1B59), (0x1BB0, 0x1BB9), (0x1C40, 0x1C49),
   (0x1C50, 0x1C59), (0x2070, 0x2070), (0x2074, 0x2079),
   (0x2080, 0x2089), (0x2460, 0x2468), (0x2474, 0x247C),
   (0x2488, 0x2490), (0x24EA, 0x24EA), (0x24F5, 0x24FD),
   (0x24FF, 0x24FF), (0x2776, 0x277E), (0x2780, 0x2788),
   (0x278A, 0x2792), (0xA620, 0xA629), (0xA8D0, 0xA8D9),
   (0xA900, 0xA909), (0xA9D0, 0xA9D9), (0xA9F0, 0xA9F9),
   (0xAA50, 0xAA59), (0xABF0, 0xABF9), (0xFF10, 0xFF19)]

/-- Models Python's `str.isdigit` on one character: the ASCII digits plus
the further Unicode digit-class code points of `pyDigitExtra`.  Note the
set is strictly larger than the decimal digits: the superscript two
(U+00B2) is accepted. -/
def pyIsDigit (c : Char) : Bool :=
  (0x30 ≤ c.toNat && c.toNat ≤ 0x39) ||
    pyDigitExtra.any (fun r => r.1 ≤ c.toNat && c.toNat ≤ r.2)

/-- Follows the spec's words, for comparison with the code: the spec says
normalize-phone keeps `the substring of decimal digit characters only, in
original order`, a decimal digit being one of 0-9. -/
def specIsDecimalDigit (c : Char) : Bool :=
  0x30 ≤ c.toNat && c.toNat ≤ 0x39

/-- The spec-described normalization: keep exactly the decimal digits. -/
def specDecimalNormalize (s : String) : String :=
  String.mk (s.data.filter specIsDecimalDigit)

/-- Models `standardize_phone` (src/App/transformations.py lines 100-104):
`''.join(filter(str.isdigit, str(phone)))` keeps exactly the characters
`str.isdigit` accepts, in their original order. -/
def standardize_phone (phone : String) : String :=
  String.mk (phone.data.filter pyIsDigit)

/-- Assignment `df[name] = <per-row value>`: when the column exists, every
position carrying that name is overwritten row by row; otherwise the column
is appended on the right, as pandas does. -/
def setColumnWith (df : DataFrame) (name : String) (f : List Value → Value) :
    DataFrame :=
  if df.columns.contains name then
    { df with
      rows := df.rows.map (fun row =>
        List.zipWith (fun c v => if c = name then f row else v)
          df.columns row) }
  else
    { columns := df.columns ++ [name]
      rows := df.rows.map (fun row => row ++ [f row]) }

/-- The value a row holds in a named column (first matching position). -/
def colValue (df : DataFrame) (name : String) (row : List Value) : Value :=
  (row.get? (df.columns.findIdx (fun c => c = name))).getD .vnull

/-- Membership test for the regex class `\W` complement: word characters. -/
def isWordChar (c : Char) : Bool :=
  c.isAlphanum || c = '_'

/-- Replacement pass of `re.sub(r'\W+', '_', col)`: every maximal run of
non-word characters becomes a single underscore.  The flag records whether
the previous character belonged to such a run. -/
def subNonWord (inRun : Bool) : List Char → List Char
  | [] => []
  | c :: rest =>
      if isWordChar c then c :: subNonWord false rest
      else if inRun then subNonWord true rest
      else '_' :: subNonWord true rest

/-- Collapse pass of `re.sub(r'_+', '_', col)`. -/
def collapseUnderscores (inRun : Bool) : List Char → List Char
  | [] => []
  | c :: rest =>
      if c = '_' then
        if inRun then collapseUnderscores true rest
        else c :: collapseUnderscores true rest
      else c :: collapseUnderscores false rest

/-- Python `str.strip('_')`: drop leading and trailing underscores. -/
def stripUnderscores (l : List Char) : List Char :=
  ((l.dropWhile (fun c => c = '_')).reverse.dropWhile (fun c => c = '_')).reverse

/-- Models `clean_column_names` on one name
(src/App/transformations.py lines 67-73): substitute non-word runs, strip
the ends, then collapse repeated underscores. -/
def cleanName (s : String) : String :=
  String.mk (collapseUnderscores false (stripUnderscores (subNonWord false s.data)))

/-- Python `str.capitalize`: first character upper-cased, the rest lowered. -/
def capitalizePy (s : String) : String :=
  match s.data with
  | [] => ""
  | c :: rest => String.mk (c.toUpper :: rest.map Char.toLower)

/-- Models `to_camel_case` (src/App/transformations.py lines 93-97). -/
def to_camel_case (s : String) : String :=
  match s.splitOn "_" with
  | [] => ""
  | p :: ps => p.toLower ++ String.join (ps.map capitalizePy)

/-- Models `format_column_names` (src/App/transformations.py lines 76-90):
an unrecognized format type returns the columns unchanged. -/
def format_column_names (columns : List String) (format_type : String) :
    List String :=
  if format_type = "camel_case" then columns.map to_camel_case
  else if format_type = "all_caps" then columns.map String.toUpper
  else if format_type = "all_lower" then columns.map String.toLower
  else columns

/-- Models `apply_transformation` (src/App/transformations.py lines 19-64).
`evalF` stands for the pandas `df.eval` collaborator used by the
`calculate_value` branch, evaluated per row; `now` is the instant
`datetime.now()` returns during this step.  The source dispatches on
`transformation['type']` with no final else clause, so a tag that matches no
branch falls through and the frame is returned unchanged. -/
def apply_transformation (evalF : String → DataFrame → List Value → Value)
    (now : Nat) (df : DataFrame) (tr : TransformStep) :
    Except PyError DataFrame :=
  if tr.ttype = "add_timestamp" then
    (getParam tr.column_name "column_name").map (fun name =>
      setColumnWith df name (fun _ => .vts now))
  else if tr.ttype = "rename_column" then
    (getParam tr.old_name "old_name").bind (fun oldn =>
      (getParam tr.new_name "new_name").map (fun newn =>
        { df with
          columns := df.columns.map (fun c => if c = oldn then newn else c) }))
  else if tr.ttype = "standardize_phone" then
    (getParam tr.column_name "column_name").bind (fun name =>
      if df.columns.contains name then
        .ok (setColumnWith df name (fun row =>
          .vstr (standardize_phone (pyStr (colValue df name row)))))
      else .error (.keyError name))
  else if tr.ttype = "calculate_value" then
    (getParam tr.new_column "new_column").bind (fun newc =>
      (getParam tr.formula "formula").map (fun f =>
        setColumnWith df newc (fun row => evalF f df row)))
  else if tr.ttype = "clean_column_names" then
    .ok { df with columns := df.columns.map cleanName }
  else if tr.ttype = "format_column_names" then
    (getParam tr.format_type "format_type").map (fun ft =>
      { df with columns := format_column_names df.columns ft })
  else
    .ok df

/-- Models `transform` (src/App/transformations.py lines 8-17) as
`Pipeline.transform_data` invokes it (src/App/pipelines.py lines 139-140):
the steps are applied in declared order, stopping at the first exception.
The `add_metadata` branch is not taken, the pipeline documents modelled here
leaving that key at its `False` default. -/
def transform (evalF : String → DataFrame → List Value → Value) (now : Nat)
    (df : DataFrame) : List TransformStep → Except PyError DataFrame
  | [] => .ok df
  | tr :: rest =>
      (apply_transformation evalF now df tr).bind (fun df' =>
        transform evalF now df' rest)

/-!
Pipeline orchestration (src/App/pipelines.py).  The connection registry is
an association list from connection name to its configuration record; the
pipeline document is a record of optional keys, absence of a key modelling
its absence from the YAML dictionary.  The actual media (files, database
servers) are external collaborators: the outcome of touching the source
medium and the outcome of the target-side database call are `Except`-valued
parameters, and an event trace records each time a medium is touched.
-/

/-- A loaded connection configuration record.  Only the `type` field steers
control flow in the pipeline layer; the credential and path fields are
consumed by the external connector collaborators. -/
structure ConnConfig where
  ctype : String
deriving DecidableEq, Repr

/-- The `ConfigLoader.connections` registry: connection name to record. -/
abbrev Registry := List (String × ConnConfig)

/-- Models `ConfigLoader.get_config_by_name` (src/App/pipelines.py lines
42-46): a missing name raises `ValueError("Connection ... not found")`. -/
def get_config_by_name (reg : Registry) (name : String) :
    Except PyError ConnConfig :=
  match alookup reg name with
  | some c => .ok c
  | none => .error (.valueErrorConnectionNotFound name)

/-- The `source` sub-document of a pipeline configuration. -/
structure SourceConfig where
  connection_name : String
  query : Option String := none
deriving DecidableEq, Repr

/-- The `target` sub-document of a pipeline configuration. -/
structure TargetConfig where
  connection_name : String
  action : String
  schema_name : Option String := none
  table_name : Option String := none
deriving DecidableEq, Repr

/-- A pipeline document; a `none` field models a key absent from the YAML. -/
structure PipelineConfig where
  pname : Option String := none
  source : Option SourceConfig := none
  target : Option TargetConfig := none
  transformations : Option (List TransformStep) := none
deriving DecidableEq, Repr

/-- Models `Pipeline.validate_config` (src/App/pipelines.py lines 74-78):
only the presence of the four required keys is checked; the value of
`target.action` is not inspected here. -/
def validate_config (cfg : PipelineConfig) : Except PyError Unit :=
  if cfg.pname.isNone then .error (.valueErrorMissingKey "name")
  else if cfg.source.isNone then .error (.valueErrorMissingKey "source")
  else if cfg.target.isNone then .error (.valueErrorMissingKey "target")
  else if cfg.transformations.isNone then
    .error (.valueErrorMissingKey "transformations")
  else .ok ()

/-- The fields `Pipeline.__init__` leaves behind after a successful setup. -/
structure PipelineState where
  source_connection_name : String
  source_query : Option String
  target_connection_name : String
  target_action : String
  target_schema_name : Option String
  target_table_name : Option String
  transformations : List TransformStep
deriving DecidableEq, Repr

/-- Models `Pipeline.__init__` (src/App/pipelines.py lines 49-102):
`validate_config`, then `setup_source`, then `setup_target`.  `setup_target`
resolves the target connection in the registry — raising the
`ValueError("Connection ... not found")` of `get_config_by_name` when the
name is absent — and, for non-file connector types, requires `table_name`.
Any exception escapes the constructor uncaught. -/
def pipelineInit (reg : Registry) (cfg : PipelineConfig) :
    Except PyError PipelineState :=
  (validate_config cfg).bind (fun _ =>
    match cfg.source, cfg.target, cfg.transformations with
    | some src, some tgt, some trs =>
        (get_config_by_name reg tgt.connection_name).bind (fun tcfg =>
          if tcfg.ctype ≠ "CSV" ∧ tcfg.ctype ≠ "Excel" then
            match tgt.table_name with
            | none => .error (.valueErrorMissingKey "table_name")
            | some tn =>
                .ok { source_connection_name := src.connection_name
                      source_query := src.query
                      target_connection_name := tgt.connection_name
                      target_action := tgt.action
                      target_schema_name := tgt.schema_name
                      target_table_name := some tn
                      transformations := trs }
          else
            .ok { source_connection_name := src.connection_name
                  source_query := src.query
                  target_connection_name := tgt.connection_name
                  target_action := tgt.action
                  target_schema_name := tgt.schema_name
                  target_table_name := none
                  transformations := trs })
    | _, _, _ => .error (.valueErrorMissingKey "source"))

/-- The run-status record `Pipeline.__init__` initializes
(src/App/pipelines.py lines 58-63). -/
structure RunStatus where
  success : Bool
  errors : List String
  source_rows : Nat
  target_rows : Nat
deriving DecidableEq, Repr

/-- The fresh status of a run. -/
def initStatus : RunStatus :=
  { success := true, errors := [], source_rows := 0, target_rows := 0 }

/-- Observable touches of external media during a run. -/
inductive Event where
  | sourceAccess
  | writeAttempt
deriving DecidableEq, Repr

/-- Rendering of a caught exception into the recorded message text. -/
def pyErrorText : PyError → String
  | .keyError k => "KeyError: " ++ k
  | .valueErrorMissingKey k => "Missing required configuration key: " ++ k
  | .valueErrorConnectionNotFound n => "Connection " ++ n ++ " not found"
  | .valueErrorUnsupportedAction a => "Unsupported action: " ++ a
  | .databaseError _ => "DatabaseError"

/-- Models `Pipeline.handle_error` (src/App/pipelines.py lines 258-262):
mark the run failed and append the composed message. -/
def handle_error (status : RunStatus) (errorType : String) (e : PyError) :
    RunStatus :=
  { status with
    success := false
    errors := status.errors ++ [errorType ++ ": " ++ pyErrorText e] }

/-- Whether an exception is the `DatabaseError` the dedicated except-branch
of `read_source` and `write_target` catches first. -/
def isDatabaseError : PyError → Bool
  | .databaseError _ => true
  | _ => false

/-- Models `Pipeline.read_source` (src/App/pipelines.py lines 226-256).  The
registry lookup may raise inside the try-block; once a connector is built
the source medium is touched, with outcome `sourceRead`.  Every exception is
caught: the error is recorded and an empty frame is returned. -/
def read_source (reg : Registry) (st : PipelineState)
    (sourceRead : Except PyError DataFrame) (status : RunStatus) :
    DataFrame × RunStatus × List Event :=
  match get_config_by_name reg st.source_connection_name with
  | .error e => (emptyDf, handle_error status "Error reading source data" e, [])
  | .ok _ =>
      match sourceRead with
      | .ok df => (df, status, [.sourceAccess])
      | .error e =>
          if isDatabaseError e then
            (emptyDf,
             handle_error status "Database error reading source data" e,
             [.sourceAccess])
          else
            (emptyDf, handle_error status "Error reading source data" e,
             [.sourceAccess])

/-- Models `Pipeline.write_target` (src/App/pipelines.py lines 142-190).
The action is dispatched only here: for SQL-backed targets an action outside
append / truncate_and_load / drop_and_load raises
`ValueError("Unsupported action: ...")` before `process_request` is called,
and for CSV/Excel targets one outside replace / append raises likewise
before `write_data`; both raises are caught by the method's own
except-clauses and recorded.  `writeOutcome` is the outcome of the external
database or file write when it is reached. -/
def write_target (reg : Registry) (st : PipelineState)
    (writeOutcome : Except PyError Unit) (df : DataFrame)
    (status : RunStatus) : RunStatus × List Event :=
  match get_config_by_name reg st.target_connection_name with
  | .error e =>
      ({ handle_error status "Error writing target data" e with
         target_rows := 0 }, [])
  | .ok tcfg =>
      if tcfg.ctype = "CSV" ∨ tcfg.ctype = "Excel" then
        if st.target_action = "replace" ∨ st.target_action = "append" then
          match writeOutcome with
          | .ok _ => ({ status with target_rows := df.nRows }, [.writeAttempt])
          | .error e =>
              ({ handle_error status "Error writing target data" e with
                 target_rows := 0 }, [.writeAttempt])
        else
          ({ handle_error status "Error writing target data"
               (.valueErrorUnsupportedAction st.target_action) with
             target_rows := 0 }, [])
      else
        if st.target_action = "append" ∨
            st.target_action = "truncate_and_load" ∨
            st.target_action = "drop_and_load" then
          match writeOutcome with
          | .ok _ => ({ status with target_rows := df.nRows }, [.writeAttempt])
          | .error e =>
              if isDatabaseError e then
                (handle_error status "Database error writing target data" e,
                 [.writeAttempt])
              else
                ({ handle_error status "Error writing target data" e with
                   target_rows := 0 }, [.writeAttempt])
        else
          ({ handle_error status "Error writing target data"
               (.valueErrorUnsupportedAction st.target_action) with
             target_rows := 0 }, [])

/-- Models `Pipeline.run` (src/App/pipelines.py lines 105-130): read the
source (which swallows its own errors), record the source row count,
transform, and write only when the transformed frame is non-empty.  An
exception escaping the transform is caught by the surrounding try and
recorded as a pipeline-run failure; the summary always emits. -/
def pipelineRun (evalF : String → DataFrame → List Value → Value) (now : Nat)
    (reg : Registry) (st : PipelineState)
    (sourceRead : Except PyError DataFrame)
    (writeOutcome : Except PyError Unit) : RunStatus × List Event :=
  let r1 := read_source reg st sourceRead initStatus
  let df := r1.1
  let status1 := { r1.2.1 with source_rows := df.nRows }
  let ev1 := r1.2.2
  match transform evalF now df st.transformations with
  | .error e => (handle_error status1 "Pipeline run failed" e, ev1)
  | .ok tdf =>
      if tdf.isEmptyDf then (status1, ev1)
      else
        let r2 := write_target reg st writeOutcome tdf status1
        (r2.1, ev1 ++ r2.2)

/-- Models `PipelineManager.run_pipeline` (src/App/pipelines.py lines
291-297): an unknown pipeline name only logs (`.ok none`); a known name
constructs a `Pipeline` — whose constructor exceptions propagate uncaught
out of `run_pipeline` — and runs it. -/
def run_pipeline (evalF : String → DataFrame → List Value → Value) (now : Nat)
    (reg : Registry) (pipelines : List (String × PipelineConfig))
    (name : String) (sourceRead : Except PyError DataFrame)
    (writeOutcome : Except PyError Unit) :
    Except PyError (Option (RunStatus × List Event)) :=
  match alookup pipelines name with
  | none => .ok none
  | some cfg =>
      (pipelineInit reg cfg).map (fun st =>
        some (pipelineRun evalF now reg st sourceRead writeOutcome))

/-!
Concrete sample data used by witnesses and counterexamples.
-/

/-- A trivial formula evaluator standing in for pandas `df.eval` in closed
instances; none of the sample pipelines uses a `calculate_value` step. -/
def evalF0 : String → DataFrame → List Value → Value :=
  fun _ _ _ => Value.vnull

/-- A two-column table with one row. -/
def tblAB : Table :=
  { schema := ["a", "b"], rows := [[.vint 1, .vint 2]] }

/-- A Postgres database whose public schema holds the table `t`. -/
def pgDb1 : PgDb :=
  { schemas := ["public"], tables := [(("public", "t"), tblAB)] }

/-- A Postgres database with an empty public schema. -/
def pgDb2 : PgDb :=
  { schemas := ["public"], tables := [] }

/-- A one-column, one-row frame. -/
def dfOneRow : DataFrame :=
  { columns := ["a"], rows := [[.vint 1]] }

/-- A one-column frame with no rows. -/
def dfZeroRows : DataFrame :=
  { columns := ["a"], rows := [] }

/-- A phone-number frame. -/
def dfPhones : DataFrame :=
  { columns := ["phone"], rows := [[.vstr "(123) 456-7890"], [.vstr "987.654.3210"]] }

/-- A registry holding a CSV source connection and a PostgreSQL target. -/
def regSample : Registry :=
  [("src", { ctype := "CSV" }), ("tgt", { ctype := "PostgreSQL" })]

/-- A pipeline document whose target action is an unsupported value. -/
def cfgBadAction : PipelineConfig :=
  { pname := some "p"
    source := some { connection_name := "src" }
    target := some { connection_name := "tgt", action := "bogus",
                     table_name := some "t" }
    transformations := some [] }

/-- The state `pipelineInit regSample cfgBadAction` produces. -/
def stBadAction : PipelineState :=
  { source_connection_name := "src", source_query := none
    target_connection_name := "tgt", target_action := "bogus"
    target_schema_name := none, target_table_name := some "t"
    transformations := [] }

/-- The state of a well-formed append pipeline over `regSample`. -/
def stAppend : PipelineState :=
  { source_connection_name := "src", source_query := none
    target_connection_name := "tgt", target_action := "append"
    target_schema_name := none, target_table_name := some "t"
    transformations := [] }

/-- A pipeline document naming a target connection absent from `regC6`. -/
def cfgMissingTarget : PipelineConfig :=
  { pname := some "p"
    source := some { connection_name := "src" }
    target := some { connection_name := "missing_tgt", action := "append",
                     table_name := some "t" }
    transformations := some [] }

/-- A registry with only the source connection. -/
def regC6 : Registry :=
  [("src", { ctype := "CSV" })]

/-- The loaded pipelines of the manager in the C6 scenario. -/
def pipesC6 : List (String × PipelineConfig) :=
  [("p", cfgMissingTarget)]

/-!
Theorems.  Helper lemmas about the association-list database semantics and
the dataframe operations come first; the claim theorems follow.
-/

theorem alookup_aclear_self {α : Type} [DecidableEq α]
    (l : List (α × Table)) (k : α) :
    alookup (aclear l k) k =
      (alookup l k).map (fun tb => { tb with rows := [] }) := by
  induction l with
  | nil => rfl
  | cons p rest ih =>
      by_cases h : p.1 = k
      · simp [aclear, alookup, h]
      · simp [aclear, alookup, h, ih]

theorem alookup_aclear_ne {α : Type} [DecidableEq α]
    (l : List (α × Table)) (k u : α) (h : u ≠ k) :
    alookup (aclear l k) u = alookup l u := by
  induction l with
  | nil => rfl
  | cons p rest ih =>
      by_cases hp : p.1 = k
      · simp [aclear, alookup, hp, Ne.symm h, ih]
      · by_cases hu : p.1 = u
        · simp [aclear, alookup, hp, hu, h]
        · simp [aclear, alookup, hp, hu, ih]

theorem alookup_adrop_self {α : Type} [DecidableEq α]
    (l : List (α × Table)) (k : α) :
    alookup (adrop l k) k = none := by
  induction l with
  | nil => rfl
  | cons p rest ih =>
      by_cases h : p.1 = k
      · simp [adrop, h, ih]
      · simp [adrop, alookup, h, ih]

theorem adrop_adrop {α : Type} [DecidableEq α]
    (l : List (α × Table)) (k : α) :
    adrop (adrop l k) k = adrop l k := by
  induction l with
  | nil => rfl
  | cons p rest ih =>
      by_cases h : p.1 = k
      · simp [adrop, h, ih]
      · simp [adrop, h, ih]

/-- C1: the spec says truncate on a nonexistent table is a warning-level
no-op on every supported SQL backend.  That fails on the
`PostgresSQLHandler` backend: with the public schema present but the table
absent, `truncate_table` raises DatabaseError rather than warning. -/
theorem c1_counterexample :
    PostgresSQLHandler.truncate_table pgDb2 "public" "t" =
      .error .tableMissing := by
  rfl

/-- C1 (amended): on the `SQLConnector` family truncate leaves an existing
table present with zero rows and its schema unchanged (other tables
untouched) and is a no-exception no-op on a nonexistent table; the
`PostgresSQLHandler` backend preserves the existing-table behaviour but
raises DatabaseError when the table does not exist. -/
theorem c1_truncate_contract :
    (∀ (db : Db) (t : String) (tb : Table), alookup db t = some tb →
      SQLConnector.truncate_table db t = .ok (aclear db t) ∧
      alookup (aclear db t) t = some { tb with rows := [] } ∧
      ∀ u, u ≠ t → alookup (aclear db t) u = alookup db u) ∧
    (∀ (db : Db) (t : String), alookup db t = none →
      SQLConnector.truncate_table db t = .ok db) ∧
    (∀ (pdb : PgDb) (s t : String) (tb : Table),
      PostgresSQLHandler.schema_exists pdb s = true →
      alookup pdb.tables (s, t) = some tb →
      PostgresSQLHandler.truncate_table pdb s t =
        .ok { pdb with tables := aclear pdb.tables (s, t) } ∧
      alookup (aclear pdb.tables (s, t)) (s, t) =
        some { tb with rows := [] }) ∧
    (∀ (pdb : PgDb) (s t : String),
      PostgresSQLHandler.schema_exists pdb s = true →
      PostgresSQLHandler.table_exists pdb s t = false →
      PostgresSQLHandler.truncate_table pdb s t = .error .tableMissing) := by
  refine ⟨?_, ?_, ?_, ?_⟩
  · intro db t tb h
    refine ⟨?_, ?_, ?_⟩
    · simp [SQLConnector.truncate_table, SQLConnector.sqlTruncate,
        SQLConnector.table_exists, h]
    · simp [alookup_aclear_self, h]
    · intro u hu
      exact alookup_aclear_ne db t u hu
  · intro db t h
    simp [SQLConnector.truncate_table, SQLConnector.table_exists, h]
  · intro pdb s t tb hs h
    have hex : PostgresSQLHandler.table_exists pdb s t = true := by
      simp [PostgresSQLHandler.table_exists, h]
    constructor
    · simp [PostgresSQLHandler.truncate_table, hs, hex,
        PostgresSQLHandler.rowCount, alookup_aclear_self, h]
    · simp [alookup_aclear_self, h]
  · intro pdb s t hs hex
    simp [PostgresSQLHandler.truncate_table, hs, hex]

/-- C1 witness: the amended contract evaluated on concrete databases. -/
theorem c1_truncate_contract_witness :
    (SQLConnector.truncate_table [("t", tblAB)] "t" =
        .ok (aclear [("t", tblAB)] "t") ∧
      alookup (aclear [("t", tblAB)] "t") "t" =
        some { tblAB with rows := [] } ∧
      ∀ u, u ≠ "t" →
        alookup (aclear [("t", tblAB)] "t") u = alookup [("t", tblAB)] u) ∧
    SQLConnector.truncate_table ([] : Db) "t" = .ok [] ∧
    (PostgresSQLHandler.truncate_table pgDb1 "public" "t" =
        .ok { pgDb1 with tables := aclear pgDb1.tables ("public", "t") } ∧
      alookup (aclear pgDb1.tables ("public", "t")) ("public", "t") =
        some { tblAB with rows := [] }) ∧
    PostgresSQLHandler.truncate_table pgDb2 "public" "t" =
      .error .tableMissing :=
  ⟨c1_truncate_contract.1 [("t", tblAB)] "t" tblAB (by decide),
   c1_truncate_contract.2.1 [] "t" (by decide),
   c1_truncate_contract.2.2.1 pgDb1 "public" "t" tblAB (by decide) (by decide),
   c1_truncate_contract.2.2.2 pgDb2 "public" "t" (by decide) (by decide)⟩

/-- C2: the spec says drop raises no error for any table identity, whether
or not the table existed.  `PostgresSQLHandler.drop_table`
(database_connectors.py lines 156-157) raises DatabaseError when the
identity's schema is absent: here the database has only the public schema
and dropping ghost.t fails. -/
theorem c2_counterexample :
    PostgresSQLHandler.drop_table pgDb2 "ghost" "t" =
      .error .schemaMissing := by
  rfl

/-- C2 (amended): on the `SQLConnector` family, dropping a table makes the
existence check report false and a second drop succeeds and changes
nothing, whether or not the table existed; on the `PostgresSQLHandler`
backend the same holds whenever the identity's schema exists, while an
identity addressing an absent schema makes `drop_table` raise
DatabaseError. -/
theorem c2_drop_contract :
    (∀ (db : Db) (t : String),
      SQLConnector.drop_table db t = .ok (adrop db t) ∧
      SQLConnector.table_exists (adrop db t) t = false ∧
      SQLConnector.drop_table (adrop db t) t = .ok (adrop db t)) ∧
    (∀ (pdb : PgDb) (s t : String),
      PostgresSQLHandler.schema_exists pdb s = true →
      ∃ pdb', PostgresSQLHandler.drop_table pdb s t = .ok pdb' ∧
        PostgresSQLHandler.table_exists pdb' s t = false ∧
        PostgresSQLHandler.drop_table pdb' s t = .ok pdb') ∧
    (∀ (pdb : PgDb) (s t : String),
      PostgresSQLHandler.schema_exists pdb s = false →
      PostgresSQLHandler.drop_table pdb s t = .error .schemaMissing) := by
  refine ⟨?_, ?_, ?_⟩
  · intro db t
    refine ⟨rfl, ?_, ?_⟩
    · simp [SQLConnector.table_exists, alookup_adrop_self]
    · simp [SQLConnector.drop_table, adrop_adrop]
  · intro pdb s t hs
    refine ⟨{ pdb with tables := adrop pdb.tables (s, t) }, ?_, ?_, ?_⟩
    · simp [PostgresSQLHandler.drop_table, hs,
        PostgresSQLHandler.table_exists, alookup_adrop_self]
    · simp [PostgresSQLHandler.table_exists, alookup_adrop_self]
    · have hs' : PostgresSQLHandler.schema_exists
          { pdb with tables := adrop pdb.tables (s, t) } s = true := hs
      simp [PostgresSQLHandler.drop_table, hs',
        PostgresSQLHandler.table_exists, alookup_adrop_self, adrop_adrop]
  · intro pdb s t hs
    simp [PostgresSQLHandler.drop_table, hs]

/-- C2 witness: the amended drop contract evaluated on concrete databases,
both with the addressed schema present and with it absent. -/
theorem c2_drop_contract_witness :
    (SQLConnector.drop_table [("t", tblAB)] "t" =
        .ok (adrop [("t", tblAB)] "t") ∧
      SQLConnector.table_exists (adrop [("t", tblAB)] "t") "t" = false ∧
      SQLConnector.drop_table (adrop [("t", tblAB)] "t") "t" =
        .ok (adrop [("t", tblAB)] "t")) ∧
    (∃ pdb', PostgresSQLHandler.drop_table pgDb1 "public" "t" = .ok pdb' ∧
      PostgresSQLHandler.table_exists pdb' "public" "t" = false ∧
      PostgresSQLHandler.drop_table pdb' "public" "t" = .ok pdb') ∧
    PostgresSQLHandler.drop_table pgDb1 "ghost" "t" =
      .error .schemaMissing :=
  ⟨c2_drop_contract.1 [("t", tblAB)] "t",
   c2_drop_contract.2.1 pgDb1 "public" "t" (by decide),
   c2_drop_contract.2.2 pgDb1 "ghost" "t" (by decide)⟩

theorem except_map_ok {ε α β : Type} (f : α → β) (a : α) :
    Except.map f (.ok a : Except ε α) = .ok (f a) := rfl

theorem except_map_error {ε α β : Type} (f : α → β) (e : ε) :
    Except.map f (.error e : Except ε α) = .error e := rfl

theorem except_bind_ok {ε α β : Type} (a : α) (f : α → Except ε β) :
    (Except.ok a : Except ε α).bind f = f a := rfl

theorem except_bind_error {ε α β : Type} (e : ε) (f : α → Except ε β) :
    (Except.error e : Except ε α).bind f = .error e := rfl

theorem map_rename_id (cols : List String) (oldn newn : String)
    (h : oldn ∉ cols) :
    cols.map (fun c => if c = oldn then newn else c) = cols := by
  induction cols with
  | nil => rfl
  | cons c cs ih =>
      simp only [List.mem_cons, not_or] at h
      have hc : ¬ c = oldn := fun hc => h.1 hc.symm
      simp [hc, ih h.2]

theorem setColumnWith_nRows (df : DataFrame) (name : String)
    (f : List Value → Value) :
    (setColumnWith df name f).nRows = df.nRows := by
  unfold setColumnWith
  split <;> simp [DataFrame.nRows]

theorem zipWith_set_getElem (name : String) (v : Value)
    (cols : List String) (row : List Value) (i : Nat)
    (hlen : row.length = cols.length) (hget : cols[i]? = some name) :
    (List.zipWith (fun c x => if c = name then v else x) cols row)[i]? =
      some v := by
  induction cols generalizing row i with
  | nil => simp at hget
  | cons c cs ih =>
      cases row with
      | nil => simp at hlen
      | cons r rs =>
          cases i with
          | zero =>
              have hcn : c = name := by simpa using hget
              simp [hcn]
          | succ n =>
              have hlen' : rs.length = cs.length := by simpa using hlen
              have hget' : cs[n]? = some name := by simpa using hget
              simpa using ih rs n hlen' hget'

/-- C4: the spec says an unknown transformation kind fails with ConfigError
at its first occurrence.  The dispatch in `apply_transformation` has no
final else clause, so the unknown kind is silently skipped: the whole
transform stage succeeds and returns the dataset unchanged. -/
theorem c4_counterexample :
    transform evalF0 0 dfPhones [{ ttype := "bogus_step" }] = .ok dfPhones := by
  rfl

/-- C4 (amended): a step whose kind is not among the six recognized kinds is
silently ignored — `apply_transformation` returns the dataset unchanged and
raises nothing. -/
theorem c4_unknown_kind_skipped
    (evalF : String → DataFrame → List Value → Value) (now : Nat)
    (df : DataFrame) (tr : TransformStep)
    (h : tr.ttype ∉ ["add_timestamp", "rename_column", "standardize_phone",
      "calculate_value", "clean_column_names", "format_column_names"]) :
    apply_transformation evalF now df tr = .ok df := by
  simp only [List.mem_cons, List.not_mem_nil, or_false, not_or] at h
  obtain ⟨h1, h2, h3, h4, h5, h6⟩ := h
  simp [apply_transformation, h1, h2, h3, h4, h5, h6]

/-- C4 witness: the amended statement on a concrete unknown step. -/
theorem c4_unknown_kind_skipped_witness :
    ("bogus_step" ∉ ["add_timestamp", "rename_column", "standardize_phone",
      "calculate_value", "clean_column_names", "format_column_names"]) ∧
    apply_transformation evalF0 0 dfPhones { ttype := "bogus_step" } =
      .ok dfPhones :=
  ⟨by decide,
   c4_unknown_kind_skipped evalF0 0 dfPhones { ttype := "bogus_step" }
     (by decide)⟩

/-- C5: the spec says renaming an absent column fails with SchemaError.
Pandas `rename` without `errors='raise'` is a silent no-op on an absent
key, and that is what the code does: the frame comes back unchanged. -/
theorem c5_counterexample :
    apply_transformation evalF0 0 dfOneRow
      { ttype := "rename_column", old_name := some "b",
        new_name := some "c" } = .ok dfOneRow := by
  rfl

/-- C5 (amended): a rename step never fails; when the old name is present
every occurrence is renamed in place, the column order and the rows are
preserved, and when the old name is absent the frame is unchanged. -/
theorem c5_rename_semantics
    (evalF : String → DataFrame → List Value → Value) (now : Nat)
    (df : DataFrame) (oldn newn : String) :
    ∃ df', apply_transformation evalF now df
        { ttype := "rename_column", old_name := some oldn,
          new_name := some newn } = .ok df' ∧
      df'.rows = df.rows ∧
      (∀ i : Nat, df'.columns[i]? =
        (df.columns[i]?).map (fun c => if c = oldn then newn else c)) ∧
      (oldn ∉ df.columns → df' = df) := by
  refine ⟨{ df with
    columns := df.columns.map (fun c => if c = oldn then newn else c) },
    ?_, rfl, ?_, ?_⟩
  · simp [apply_transformation, getParam, except_map_ok, except_bind_ok]
  · intro i
    simp [List.getElem?_map]
  · intro h
    rw [map_rename_id df.columns oldn newn h]

/-- C5 witness: the amended rename contract on a concrete frame, for both a
present and an absent old name. -/
theorem c5_rename_semantics_witness :
    (∃ df', apply_transformation evalF0 0 dfPhones
        { ttype := "rename_column", old_name := some "phone",
          new_name := some "tel" } = .ok df' ∧
      df'.rows = dfPhones.rows ∧
      (∀ i : Nat, df'.columns[i]? =
        (dfPhones.columns[i]?).map (fun c => if c = "phone" then "tel" else c)) ∧
      ("phone" ∉ dfPhones.columns → df' = dfPhones)) ∧
    (∃ df', apply_transformation evalF0 0 dfPhones
        { ttype := "rename_column", old_name := some "ghost",
          new_name := some "tel" } = .ok df' ∧
      df'.rows = dfPhones.rows ∧
      (∀ i : Nat, df'.columns[i]? =
        (dfPhones.columns[i]?).map (fun c => if c = "ghost" then "tel" else c)) ∧
      ("ghost" ∉ dfPhones.columns → df' = dfPhones)) :=
  ⟨c5_rename_semantics evalF0 0 dfPhones "phone" "tel",
   c5_rename_semantics evalF0 0 dfPhones "ghost" "tel"⟩

theorem pyIsDigit_ascii (c : Char) (h : c.toNat < 128) :
    pyIsDigit c = specIsDecimalDigit c := by
  have h1 : ∀ (a b : Nat), 128 ≤ a →
      ((decide (a ≤ c.toNat) && decide (c.toNat ≤ b)) = false) := by
    intro a b ha
    have hna : ¬ a ≤ c.toNat := by omega
    simp [hna]
  simp [pyIsDigit, specIsDecimalDigit, pyDigitExtra, h1]

/-- C7: the spec says the result is the subsequence of the decimal digit
characters of the input.  Python's `str.isdigit` also accepts digit-class
characters that are not decimal digits: on "78²90" the code keeps the
superscript two, so the program's output differs from the decimal-digit
subsequence the claim describes. -/
theorem c7_counterexample :
    standardize_phone "78²90" = "78²90" ∧
    specDecimalNormalize "78²90" = "7890" ∧
    standardize_phone "78²90" ≠ specDecimalNormalize "78²90" := by
  decide

/-- C7 (amended): phone normalization is idempotent for every input string,
and its output is the subsequence, in original order, of the characters
Python's `str.isdigit` accepts.  On strings of ASCII characters this is
exactly the decimal-digit subsequence the spec describes; Unicode
digit-class characters such as the superscript two are retained as well,
so in general the output is not the decimal-digit subsequence. -/
theorem c7_phone_amended :
    (∀ s : String,
      standardize_phone (standardize_phone s) = standardize_phone s) ∧
    (∀ s : String,
      (standardize_phone s).data = s.data.filter pyIsDigit ∧
      (standardize_phone s).data.Sublist s.data) ∧
    (∀ s : String, (∀ c ∈ s.data, c.toNat < 128) →
      standardize_phone s = specDecimalNormalize s) := by
  refine ⟨?_, ?_, ?_⟩
  · intro s
    simp [standardize_phone, List.filter_filter]
  · intro s
    exact ⟨rfl, List.filter_sublist s.data⟩
  · intro s h
    unfold standardize_phone specDecimalNormalize
    exact congrArg String.mk
      (List.filter_congr (fun c hc => pyIsDigit_ascii c (h c hc)))

/-- C7 witness: the amended contract evaluated on the spec's example
input, which is pure ASCII. -/
theorem c7_phone_amended_witness :
    (standardize_phone (standardize_phone "(123) 456-7890") =
      standardize_phone "(123) 456-7890") ∧
    ((standardize_phone "(123) 456-7890").data =
      "(123) 456-7890".data.filter pyIsDigit ∧
      (standardize_phone "(123) 456-7890").data.Sublist
        "(123) 456-7890".data) ∧
    ((∀ c ∈ "(123) 456-7890".data, c.toNat < 128) ∧
      standardize_phone "(123) 456-7890" =
        specDecimalNormalize "(123) 456-7890") :=
  ⟨c7_phone_amended.1 "(123) 456-7890",
   c7_phone_amended.2.1 "(123) 456-7890",
   by decide,
   c7_phone_amended.2.2 "(123) 456-7890" (by decide)⟩

/-- C8: the add-timestamp step captures the wall clock once per step
execution — the single `now` of the invocation — and afterwards every row
carries exactly that value at every position of the named column, whether
the column already existed or was appended. -/
theorem c8_add_timestamp_uniform
    (evalF : String → DataFrame → List Value → Value) (now : Nat)
    (df : DataFrame) (name : String)
    (halign : ∀ row ∈ df.rows, row.length = df.columns.length) :
    ∃ df', apply_transformation evalF now df
        { ttype := "add_timestamp", column_name := some name } = .ok df' ∧
      df'.nRows = df.nRows ∧
      name ∈ df'.columns ∧
      ∀ row ∈ df'.rows, ∀ i : Nat, df'.columns[i]? = some name →
        row[i]? = some (.vts now) := by
  by_cases hc : df.columns.contains name
  · refine ⟨{ df with rows := df.rows.map (fun row =>
      List.zipWith (fun c v => if c = name then Value.vts now else v)
        df.columns row) }, ?_, ?_, ?_, ?_⟩
    · have hmem : name ∈ df.columns := by simpa using hc
      simp [apply_transformation, getParam, setColumnWith, hc, except_map_ok,
        hmem]
    · simp [DataFrame.nRows]
    · simpa using hc
    · intro row hrow i hcol
      simp only [List.mem_map] at hrow
      obtain ⟨row0, hrow0, rfl⟩ := hrow
      exact zipWith_set_getElem name _ df.columns row0 i
        (halign row0 hrow0) hcol
  · refine ⟨⟨df.columns ++ [name],
      df.rows.map (fun row => row ++ [Value.vts now])⟩, ?_, ?_, ?_, ?_⟩
    · have hnm : name ∉ df.columns := by simpa using hc
      simp [apply_transformation, getParam, setColumnWith, hc, except_map_ok,
        hnm]
    · simp [DataFrame.nRows]
    · simp
    · intro row hrow i hcol
      simp only [List.mem_map] at hrow
      obtain ⟨row0, hrow0, rfl⟩ := hrow
      have hnmem : name ∉ df.columns := by simpa using hc
      by_cases hi : i < df.columns.length
      · exfalso
        rw [List.getElem?_append_left hi] at hcol
        exact hnmem (List.getElem?_mem hcol)
      · push_neg at hi
        rw [List.getElem?_append_right hi] at hcol
        have hz : i - df.columns.length = 0 := by
          by_contra hne
          have hnone : ([name] : List String)[i - df.columns.length]? = none := by
            apply List.getElem?_eq_none
            simp
            omega
          simp [hnone] at hcol
        have hi0 : i = df.columns.length := by omega
        subst hi0
        have hlen : row0.length = df.columns.length := halign row0 hrow0
        rw [← hlen, List.getElem?_concat_length]

/-- C8 witness: the uniform-timestamp property on a concrete frame. -/
theorem c8_add_timestamp_witness :
    (∀ row ∈ dfPhones.rows, row.length = dfPhones.columns.length) ∧
    ∃ df', apply_transformation evalF0 42 dfPhones
        { ttype := "add_timestamp", column_name := some "loaded_at" } =
          .ok df' ∧
      df'.nRows = dfPhones.nRows ∧
      "loaded_at" ∈ df'.columns ∧
      ∀ row ∈ df'.rows, ∀ i : Nat, df'.columns[i]? = some "loaded_at" →
        row[i]? = some (.vts 42) :=
  ⟨by decide,
   c8_add_timestamp_uniform evalF0 42 dfPhones "loaded_at" (by decide)⟩

theorem apply_transformation_nRows
    (evalF : String → DataFrame → List Value → Value) (now : Nat)
    (df : DataFrame) (tr : TransformStep) (df' : DataFrame)
    (h : apply_transformation evalF now df tr = .ok df') :
    df'.nRows = df.nRows := by
  unfold apply_transformation at h
  split at h
  · cases hcn : tr.column_name with
    | none => simp [getParam, hcn, except_map_error] at h
    | some name =>
        simp only [getParam, hcn, except_map_ok, Except.ok.injEq] at h
        rw [← h]
        exact setColumnWith_nRows df name _
  · split at h
    · cases hco : tr.old_name with
      | none => simp [getParam, hco, except_bind_error] at h
      | some oldn =>
          cases hcn : tr.new_name with
          | none =>
              simp [getParam, hco, hcn, except_bind_ok,
                except_map_error] at h
          | some newn =>
              simp only [getParam, hco, hcn, except_bind_ok, except_map_ok,
                Except.ok.injEq] at h
              rw [← h]
              rfl
    · split at h
      · cases hcn : tr.column_name with
        | none => simp [getParam, hcn, except_bind_error] at h
        | some name =>
            simp only [getParam, hcn, except_bind_ok] at h
            split at h
            · simp only [Except.ok.injEq] at h
              rw [← h]
              exact setColumnWith_nRows df name _
            · simp at h
      · split at h
        · cases hcc : tr.new_column with
          | none => simp [getParam, hcc, except_bind_error] at h
          | some newc =>
              cases hcf : tr.formula with
              | none =>
                  simp [getParam, hcc, hcf, except_bind_ok,
                    except_map_error] at h
              | some f =>
                  simp only [getParam, hcc, hcf, except_bind_ok,
                    except_map_ok, Except.ok.injEq] at h
                  rw [← h]
                  exact setColumnWith_nRows df newc _
        · split at h
          · simp only [Except.ok.injEq] at h
            rw [← h]
            rfl
          · split at h
            · cases hcf : tr.format_type with
              | none => simp [getParam, hcf, except_map_error] at h
              | some ft =>
                  simp only [getParam, hcf, except_map_ok,
                    Except.ok.injEq] at h
                  rw [← h]
                  rfl
            · simp only [Except.ok.injEq] at h
              rw [← h]

theorem transform_nRows
    (evalF : String → DataFrame → List Value → Value) (now : Nat) :
    ∀ (steps : List TransformStep) (df df' : DataFrame),
      transform evalF now df steps = .ok df' → df'.nRows = df.nRows := by
  intro steps
  induction steps with
  | nil =>
      intro df df' h
      simp only [transform, Except.ok.injEq] at h
      rw [h]
  | cons tr rest ih =>
      intro df df' h
      simp only [transform] at h
      cases hap : apply_transformation evalF now df tr with
      | error e =>
          rw [hap, except_bind_error] at h
          simp at h
      | ok dfm =>
          rw [hap, except_bind_ok] at h
          calc df'.nRows = dfm.nRows := ih dfm df' h
          _ = df.nRows := apply_transformation_nRows evalF now df tr dfm hap

/-- C3: the spec says an unsupported target action raises ConfigError during
pipeline setup, before any read.  In the code, setup validates only key
presence: with action "bogus" the constructor succeeds, the source IS read,
and the failure is recorded later by `write_target`, caught rather than
raised. -/
theorem c3_counterexample :
    pipelineInit regSample cfgBadAction = .ok stBadAction ∧
    (pipelineRun evalF0 0 regSample stBadAction (.ok dfOneRow) (.ok ())).2 =
      [Event.sourceAccess] ∧
    (pipelineRun evalF0 0 regSample stBadAction (.ok dfOneRow) (.ok ())).1 =
      { success := false,
        errors := ["Error writing target data: Unsupported action: bogus"],
        source_rows := 1, target_rows := 0 } := by
  refine ⟨rfl, rfl, rfl⟩

/-- C3 (amended): an unsupported target action passes pipeline setup; the
source is read first; the `ValueError("Unsupported action: ...")` is raised
inside `write_target` (once the transformed frame is non-empty), caught
there, and recorded — the run is marked failed and the target medium is
never written. -/
theorem c3_unsupported_action_at_write
    (evalF : String → DataFrame → List Value → Value) (now : Nat)
    (reg : Registry) (st : PipelineState) (scfg tcfg : ConnConfig)
    (df tdf : DataFrame) (writeOutcome : Except PyError Unit)
    (hs : get_config_by_name reg st.source_connection_name = .ok scfg)
    (ht : get_config_by_name reg st.target_connection_name = .ok tcfg)
    (htype : tcfg.ctype ≠ "CSV" ∧ tcfg.ctype ≠ "Excel")
    (hact : st.target_action ≠ "append" ∧
      st.target_action ≠ "truncate_and_load" ∧
      st.target_action ≠ "drop_and_load")
    (htr : transform evalF now df st.transformations = .ok tdf)
    (hne : tdf.isEmptyDf = false) :
    pipelineRun evalF now reg st (.ok df) writeOutcome =
      ({ success := false,
         errors := ["Error writing target data: Unsupported action: "
           ++ st.target_action],
         source_rows := df.nRows, target_rows := 0 },
       [Event.sourceAccess]) := by
  simp [pipelineRun, read_source, write_target, handle_error, initStatus,
    pyErrorText, hs, ht, htr, hne, htype.1, htype.2, hact.1, hact.2.1,
    hact.2.2]
  rw [← String.append_assoc]
  rfl

/-- C3 witness: the amended statement on the concrete bad-action pipeline. -/
theorem c3_unsupported_action_witness :
    pipelineRun evalF0 0 regSample stBadAction (.ok dfOneRow) (.ok ()) =
      ({ success := false,
         errors := ["Error writing target data: Unsupported action: "
           ++ stBadAction.target_action],
         source_rows := dfOneRow.nRows, target_rows := 0 },
       [Event.sourceAccess]) :=
  c3_unsupported_action_at_write evalF0 0 regSample stBadAction
    { ctype := "CSV" } { ctype := "PostgreSQL" } dfOneRow dfOneRow (.ok ())
    rfl rfl (by decide) (by decide) rfl rfl

/-- C6: the spec says a missing target connection makes `run_pipeline`
return a failed status without crashing the manager.  In the code the
lookup failure is a ValueError raised inside the `Pipeline` constructor,
and `run_pipeline` has no handler for it: the exception propagates to the
caller instead of any status being returned. -/
theorem c6_counterexample :
    run_pipeline evalF0 0 regC6 pipesC6 "p" (.ok emptyDf) (.ok ()) =
      .error (.valueErrorConnectionNotFound "missing_tgt") := by
  rfl

/-- C6 (amended): when the named pipeline exists, its document has the four
required keys, and the target connection name is absent from the registry,
`run_pipeline` raises `ValueError("Connection ... not found")` out of the
`Pipeline` constructor — no run status is produced and no medium is
touched. -/
theorem c6_missing_target_raises
    (evalF : String → DataFrame → List Value → Value) (now : Nat)
    (reg : Registry) (pipelines : List (String × PipelineConfig))
    (name : String) (cfg : PipelineConfig) (nm : String)
    (src : SourceConfig) (tgt : TargetConfig) (trs : List TransformStep)
    (sourceRead : Except PyError DataFrame)
    (writeOutcome : Except PyError Unit)
    (hp : alookup pipelines name = some cfg)
    (hn : cfg.pname = some nm)
    (hsrc : cfg.source = some src)
    (htgt : cfg.target = some tgt)
    (htrs : cfg.transformations = some trs)
    (hmiss : alookup reg tgt.connection_name = none) :
    run_pipeline evalF now reg pipelines name sourceRead writeOutcome =
      .error (.valueErrorConnectionNotFound tgt.connection_name) := by
  simp [run_pipeline, hp, pipelineInit, validate_config, hn, hsrc, htgt,
    htrs, get_config_by_name, hmiss, except_bind_ok, except_bind_error,
    except_map_error]

/-- C6 witness: the amended statement on the concrete registry that lacks
the target connection. -/
theorem c6_missing_target_witness :
    run_pipeline evalF0 0 regC6 pipesC6 "p" (.ok dfOneRow) (.ok ()) =
      .error (.valueErrorConnectionNotFound "missing_tgt") :=
  c6_missing_target_raises evalF0 0 regC6 pipesC6 "p" cfgMissingTarget "p"
    { connection_name := "src" }
    { connection_name := "missing_tgt", action := "append",
      table_name := some "t" } [] (.ok dfOneRow) (.ok ())
    rfl rfl rfl rfl rfl rfl

/-- C9: a run whose source read and transform succeed and whose transformed
frame has zero rows skips the write stage and completes as a successful run:
success stays true and target_rows stays 0. -/
theorem c9_zero_rows_success
    (evalF : String → DataFrame → List Value → Value) (now : Nat)
    (reg : Registry) (st : PipelineState) (scfg : ConnConfig)
    (df tdf : DataFrame) (writeOutcome : Except PyError Unit)
    (hs : get_config_by_name reg st.source_connection_name = .ok scfg)
    (htr : transform evalF now df st.transformations = .ok tdf)
    (hzero : tdf.nRows = 0) :
    pipelineRun evalF now reg st (.ok df) writeOutcome =
      ({ success := true, errors := [], source_rows := df.nRows,
         target_rows := 0 }, [Event.sourceAccess]) := by
  have hrows : tdf.rows = [] := List.length_eq_zero.mp hzero
  have hemp : tdf.isEmptyDf = true := by
    simp [DataFrame.isEmptyDf, hrows]
  simp [pipelineRun, read_source, initStatus, hs, htr, hemp]

/-- C9 witness: a zero-row run on the concrete append pipeline. -/
theorem c9_zero_rows_witness :
    pipelineRun evalF0 0 regSample stAppend (.ok dfZeroRows) (.ok ()) =
      ({ success := true, errors := [], source_rows := dfZeroRows.nRows,
         target_rows := 0 }, [Event.sourceAccess]) :=
  c9_zero_rows_success evalF0 0 regSample stAppend { ctype := "CSV" }
    dfZeroRows dfZeroRows (.ok ()) rfl rfl rfl

/-- C10: when reading the source raises, `read_source` records the error,
marks the run failed, and substitutes an empty frame; the transformed frame
then still has zero rows (or the transform itself raises, caught by the run
boundary), so no write is ever attempted and target_rows stays 0. -/
theorem c10_failed_read_no_write
    (evalF : String → DataFrame → List Value → Value) (now : Nat)
    (reg : Registry) (st : PipelineState) (scfg : ConnConfig)
    (e : PyError) (writeOutcome : Except PyError Unit)
    (hs : get_config_by_name reg st.source_connection_name = .ok scfg) :
    (pipelineRun evalF now reg st (.error e) writeOutcome).1.success =
      false ∧
    (pipelineRun evalF now reg st (.error e) writeOutcome).1.errors.head? =
      some ((if isDatabaseError e then "Database error reading source data"
        else "Error reading source data") ++ ": " ++ pyErrorText e) ∧
    (pipelineRun evalF now reg st (.error e) writeOutcome).1.target_rows =
      0 ∧
    Event.writeAttempt ∉
      (pipelineRun evalF now reg st (.error e) writeOutcome).2 := by
  have hread : read_source reg st (.error e)
      { success := true, errors := [], source_rows := 0, target_rows := 0 } =
      (emptyDf,
       { success := false,
         errors := [(if isDatabaseError e then
             "Database error reading source data"
           else "Error reading source data") ++ ": " ++ pyErrorText e],
         source_rows := 0, target_rows := 0 },
       [Event.sourceAccess]) := by
    by_cases hdb : isDatabaseError e <;>
      simp [read_source, hs, hdb, handle_error]
  cases htr : transform evalF now emptyDf st.transformations with
  | error e2 =>
      simp [pipelineRun, initStatus, hread, htr, handle_error]
  | ok tdf =>
      have h0 : tdf.nRows = emptyDf.nRows :=
        transform_nRows evalF now st.transformations emptyDf tdf htr
      have hrows : tdf.rows = [] := by
        have hl : tdf.nRows = 0 := h0
        exact List.length_eq_zero.mp hl
      have hemp : tdf.isEmptyDf = true := by
        simp [DataFrame.isEmptyDf, hrows]
      simp [pipelineRun, initStatus, hread, htr, hemp, handle_error]

/-- C10 witness: a failed read on the concrete append pipeline. -/
theorem c10_failed_read_witness :
    (pipelineRun evalF0 0 regSample stAppend (.error (.keyError "boom"))
        (.ok ())).1.success = false ∧
    (pipelineRun evalF0 0 regSample stAppend (.error (.keyError "boom"))
        (.ok ())).1.errors.head? =
      some ((if isDatabaseError (.keyError "boom") then
          "Database error reading source data"
        else "Error reading source data") ++ ": " ++
        pyErrorText (.keyError "boom")) ∧
    (pipelineRun evalF0 0 regSample stAppend (.error (.keyError "boom"))
        (.ok ())).1.target_rows = 0 ∧
    Event.writeAttempt ∉
      (pipelineRun evalF0 0 regSample stAppend (.error (.keyError "boom"))
        (.ok ())).2 :=
  c10_failed_read_no_write evalF0 0 regSample stAppend { ctype := "CSV" }
    (.keyError "boom") (.ok ()) rfl
